import Mathlib

/-
Verification of the blinkit-scrapper repository.

The repository consists of three scraper variants concatenated in
src/index.js:
  Variant A ("enhanced" Blinkit scraper, lines 1-982),
  Variant B ("optimized" Blinkit scraper, lines 982-1524),
  Variant C (Zepto scraper, lines 1524-2056).

We shallowly embed the extraction pipeline, the auto-scroll loop, the
location-setup orchestration and the metadata annotation of these
variants.  A DOM page is modelled by a record whose fields are exactly
the values the code reads out of the page (the result of each
querySelector / attribute lookup), because the DOM itself is external
input to the program.  JavaScript null/undefined is modelled by Option;
JS truthiness of strings ("" falsy) and numbers (0 falsy) is modelled
explicitly.  JS floating point numbers are modelled by the rationals
(the prices in play are small decimal literals, where float and
rational arithmetic agree).  Math.round x is modelled as the floor of
x + 1/2, which is the half-up rounding JS uses.
-/

namespace Blinkit

/-! JS value helpers -/

/-- Truthiness of a JS string value (null/undefined or "" are falsy). -/
def strTruthy : Option String → Bool
  | none => false
  | some s => !(s == "")

/-- Truthiness of a JS number value (null/undefined or 0 are falsy). -/
def numTruthy : Option ℚ → Bool
  | none => false
  | some q => !(q == 0)

/-- Truthiness of a JS integer value (null/undefined or 0 are falsy). -/
def intTruthy : Option Int → Bool
  | none => false
  | some n => !(n == 0)

/-- JS a || b for string-valued expressions, where a chain always ends
in a literal null; consequently a falsy "" never survives the chain and
Option String is an adequate value domain. -/
def jsOrS (a b : Option String) : Option String :=
  if strTruthy a then a else b

/-- JS a || b for number-valued expressions ending in null. -/
def jsOrQ (a b : Option ℚ) : Option ℚ :=
  if numTruthy a then a else b

/-- Math.round: round half up. -/
def jsRound (x : ℚ) : Int := Int.floor (x + 1/2)

/-- The characters matched by \s in the source regexes (ASCII range). -/
def jsWsChar (c : Char) : Bool :=
  c == ' ' || c == '\t' || c == '\n' || c == '\r' || c.toNat == 11 || c.toNat == 12

/-- String.prototype.includes, on character lists. -/
def containsSub (pat : List Char) : List Char → Bool
  | [] => pat.isEmpty
  | c :: t => List.isPrefixOf pat (c :: t) || containsSub pat t

/-- String.prototype.includes. -/
def strIncludes (s sub : String) : Bool := containsSub sub.data s.data

/-! Numeric price parsing: the regex /₹\s*(\d+(?:,\d+)*(?:\.\d+)?)/
followed by stripping commas and parseFloat (src/index.js lines
442-444, 453-455, 635-636, 1260-1262, 1271-1273). -/

/-- Greedy (,\d+)* group of the price regex: consume comma-digit groups,
returning the consumed characters and the remainder.  Fuel-indexed to
keep the recursion structural; callers pass the list length, which is
enough fuel because every group consumes at least two characters. -/
def commaGroups : ℕ → List Char → List Char × List Char
  | 0, l => ([], l)
  | _ + 1, [] => ([], [])
  | fuel + 1, a :: rest =>
    if a == ',' then
      match rest with
      | b :: rest2 =>
        if b.isDigit then
          let ds := rest2.takeWhile Char.isDigit
          let (g, r) := commaGroups fuel (rest2.dropWhile Char.isDigit)
          (a :: b :: (ds ++ g), r)
        else ([], a :: rest)
      | [] => ([], [a])
    else ([], a :: rest)

/-- Optional (\.\d+)? part of the numeric regexes. -/
def decimalPart : List Char → List Char × List Char
  | a :: b :: rest =>
    if a == '.' && b.isDigit then
      (a :: b :: rest.takeWhile Char.isDigit, rest.dropWhile Char.isDigit)
    else ([], a :: b :: rest)
  | l => ([], l)

/-- Attempt of the price regex tail \s*(\d+(?:,\d+)*(?:\.\d+)?)
immediately after a ₹ character; returns the captured group. -/
def matchAfterRupee (l : List Char) : Option (List Char) :=
  let afterWs := l.dropWhile jsWsChar
  let ds := afterWs.takeWhile Char.isDigit
  if ds.isEmpty then none
  else
    let rest1 := afterWs.dropWhile Char.isDigit
    let (groups, rest2) := commaGroups rest1.length rest1
    let (dec, _) := decimalPart rest2
    some (ds ++ groups ++ dec)

/-- Leftmost match of /₹\s*(\d+(?:,\d+)*(?:\.\d+)?)/: scan positions
left to right, as the JS regex engine does. -/
def scanRupee : List Char → Option (List Char)
  | [] => none
  | c :: rest =>
    if c == '₹' then
      match matchAfterRupee rest with
      | some cap => some cap
      | none => scanRupee rest
    else scanRupee rest

/-- Numeric value of a digit list (as read by parseFloat / parseInt). -/
def natOfDigits (l : List Char) : ℕ :=
  l.foldl (fun n c => 10 * n + (c.toNat - 48)) 0

/-- parseFloat(capture.replace(/,/g, "")): strip commas, read the
integer part and the optional fractional part. -/
def ratOfCapture (l : List Char) : ℚ :=
  let noCommas := l.filter (fun c => !(c == ','))
  let intPart := noCommas.takeWhile (fun c => !(c == '.'))
  match noCommas.dropWhile (fun c => !(c == '.')) with
  | [] => (natOfDigits intPart : ℚ)
  | _ :: frac => (natOfDigits intPart : ℚ) + (natOfDigits frac : ℚ) / (10 : ℚ) ^ frac.length

/-- The numeric price parser of every extractor in the repository:
locate a ₹-marked number, strip thousands separators, parse as a
decimal; null when the regex does not match. -/
def parsePriceText (s : String) : Option ℚ :=
  (scanRupee s.data).map ratOfCapture

example : parsePriceText "₹1,299" = some 1299 := by decide
example : parsePriceText "₹12.50" = some (25/2) := by with_unfolding_all decide
example : parsePriceText "no price" = none := by decide
example : parsePriceText "₹ xyz" = none := by decide
example : parsePriceText "was ₹1,299 only" = some 1299 := by decide

/-! Remaining text-processing helpers used by the extractors. -/

/-- Case-insensitive comparison of one character against its lower and
upper case forms, as an /i regex flag does. -/
def ciEq (c lower upper : Char) : Bool := c == lower || c == upper

/-- Attempt of /(\d+)%\s*OFF/i at one position (variant A discount
badge, src/index.js line 463); returns the captured digit group. -/
def matchPercentOff (l : List Char) : Option (List Char) :=
  let ds := l.takeWhile Char.isDigit
  if ds.isEmpty then none
  else
    match (l.dropWhile Char.isDigit) with
    | p :: rest =>
      if p == '%' then
        match rest.dropWhile jsWsChar with
        | o :: f1 :: f2 :: _ =>
          if ciEq o 'o' 'O' && ciEq f1 'f' 'F' && ciEq f2 'f' 'F' then some ds else none
        | _ => none
      else none
    | [] => none

/-- Leftmost match of /(\d+)%\s*OFF/i. -/
def scanPercentOff : List Char → Option (List Char)
  | [] => none
  | c :: rest =>
    match matchPercentOff (c :: rest) with
    | some ds => some ds
    | none => scanPercentOff rest

/-- Attempt of /(\d+\s*MINS?)/i at one position (variant A delivery
time fallback, src/index.js line 479); the capture includes the digits,
the whitespace and MIN or MINS. -/
def matchMins (l : List Char) : Option (List Char) :=
  let ds := l.takeWhile Char.isDigit
  if ds.isEmpty then none
  else
    let r1 := l.dropWhile Char.isDigit
    let ws := r1.takeWhile jsWsChar
    match r1.dropWhile jsWsChar with
    | m :: i :: n :: rest =>
      if ciEq m 'm' 'M' && ciEq i 'i' 'I' && ciEq n 'n' 'N' then
        match rest with
        | s :: _ =>
          if ciEq s 's' 'S' then some (ds ++ ws ++ [m, i, n, s])
          else some (ds ++ ws ++ [m, i, n])
        | [] => some (ds ++ ws ++ [m, i, n])
      else none
    | _ => none

/-- Leftmost match of /(\d+\s*MINS?)/i. -/
def scanMins : List Char → Option (List Char)
  | [] => none
  | c :: rest =>
    match matchMins (c :: rest) with
    | some cap => some cap
    | none => scanMins rest

/-- Attempt of /(\d+(?:\.\d+)?)/ at one position (variant A rating,
src/index.js line 490). -/
def matchNum (l : List Char) : Option (List Char) :=
  let ds := l.takeWhile Char.isDigit
  if ds.isEmpty then none
  else
    let (dec, _) := decimalPart (l.dropWhile Char.isDigit)
    some (ds ++ dec)

/-- Leftmost match of /(\d+(?:\.\d+)?)/. -/
def scanNum : List Char → Option (List Char)
  | [] => none
  | c :: rest =>
    match matchNum (c :: rest) with
    | some cap => some cap
    | none => scanNum rest

/-- Test for the word option, case-insensitively, at the head of the
list (for /\d+\s*option/i, src/index.js lines 543-547). -/
def matchOptionWord : List Char → Bool
  | o :: p :: t :: i :: o2 :: n :: _ =>
    ciEq o 'o' 'O' && ciEq p 'p' 'P' && ciEq t 't' 'T' && ciEq i 'i' 'I' &&
      ciEq o2 'o' 'O' && ciEq n 'n' 'N'
  | _ => false

/-- Attempt of /(\d+)\s*option/i at one position. -/
def matchOptionAt (l : List Char) : Option (List Char) :=
  let ds := l.takeWhile Char.isDigit
  if ds.isEmpty then none
  else if matchOptionWord ((l.dropWhile Char.isDigit).dropWhile jsWsChar) then some ds
  else none

/-- Leftmost match of /(\d+)\s*option/i. -/
def scanOptionCount : List Char → Option (List Char)
  | [] => none
  | c :: rest =>
    match matchOptionAt (c :: rest) with
    | some cap => some cap
    | none => scanOptionCount rest

/-- Collapse consecutive spaces into one. -/
def squeezeSpaces : List Char → List Char
  | [] => []
  | [c] => [c]
  | a :: b :: rest =>
    if a == ' ' && b == ' ' then squeezeSpaces (b :: rest)
    else a :: squeezeSpaces (b :: rest)

/-- allText.replace(/\s+/g, " ").trim() (src/index.js line 554): every
whitespace run becomes a single space, then the ends are trimmed. -/
def collapseWsTrim (s : String) : String :=
  (String.mk (squeezeSpaces (s.data.map (fun c => if jsWsChar c then ' ' else c)))).trim

/-- Collapse consecutive dashes into one. -/
def squeezeDashes : List Char → List Char
  | [] => []
  | [c] => [c]
  | a :: b :: rest =>
    if a == '-' && b == '-' then squeezeDashes (b :: rest)
    else a :: squeezeDashes (b :: rest)

/-- Character class [a-z0-9]. -/
def isLowerAlnum (c : Char) : Bool :=
  (decide ('a' ≤ c) && decide (c ≤ 'z')) || (decide ('0' ≤ c) && decide (c ≤ '9'))

/-- createSlug (src/index.js lines 317-323): lower-case, replace runs
of characters outside [a-z0-9] by a dash, strip dashes at both ends;
a falsy name yields the string product. -/
def createSlug (name : String) : String :=
  if name == "" then "product"
  else
    let lowered := name.data.map Char.toLower
    let dashed := squeezeDashes (lowered.map (fun c => if isLowerAlnum c then c else '-'))
    String.mk (((dashed.dropWhile (· == '-')).reverse.dropWhile (· == '-')).reverse)

example : createSlug "Amul Gold Milk 500ml" = "amul-gold-milk-500ml" := by decide
example : createSlug "" = "product" := by decide

/-- String.prototype.replace with a plain-string pattern replaces only
the first occurrence. -/
def replaceFirstL (pat rep : List Char) : List Char → List Char
  | [] => []
  | c :: rest =>
    if List.isPrefixOf pat (c :: rest) then rep ++ (c :: rest).drop pat.length
    else c :: replaceFirstL pat rep rest

/-- First-occurrence string replacement, as the JS replace used for the
image resolution upgrade behaves. -/
def replaceFirst (s pat rep : String) : String :=
  String.mk (replaceFirstL pat.data rep.data s.data)

/-- The single-quote character (avoiding a quoted literal). -/
def quoteChar : Char := Char.ofNat 39

/-- Lazy part (.*?)['"]?\) of the background-image regex: the capture
is the shortest prefix followed by an optional quote and a closing
parenthesis (src/index.js line 385). -/
def lazyToParen : List Char → Option (List Char)
  | [] => none
  | c :: rest =>
    if (c == quoteChar || c == '"') && rest.head? == some ')' then some []
    else if c == ')' then some []
    else (lazyToParen rest).map (c :: ·)

/-- Leftmost match of /url\(['"]?(.*?)['"]?\)/ over a style attribute,
returning the captured URL. -/
def scanBgUrl : List Char → Option (List Char)
  | [] => none
  | c :: rest =>
    if List.isPrefixOf ['u', 'r', 'l', '('] (c :: rest) then
      let after := (c :: rest).drop 4
      let afterQ := match after with
        | q :: t => if q == quoteChar || q == '"' then t else after
        | [] => after
      match lazyToParen afterQ with
      | some cap => some cap
      | none => scanBgUrl rest
    else scanBgUrl rest

example : (scanBgUrl "background-image: url(https://x.cdn/img.png);".data).map String.mk =
    some "https://x.cdn/img.png" := by decide

/-! Variant B (optimized Blinkit scraper): extractSearchProducts,
src/index.js lines 1180-1329.  A DOM product card is modelled by the
values the per-card querySelector lookups produce. -/

/-- One product card of the variant B DOM tier (lines 1240-1287).
Each field is the value the corresponding lookup yields; none models a
missing element (or a lookup that resolves to JS null). -/
structure CardB where
  /-- card.id (the id attribute, empty when absent). -/
  id : String
  /-- textContent of div.tw-text-300.tw-font-semibold.tw-line-clamp-2. -/
  nameText : Option String
  /-- imgEl.src or its src attribute, for the first img element. -/
  imgSrc : Option String
  /-- textContent of div.tw-text-200.tw-font-semibold. -/
  priceText : Option String
  /-- textContent of div.tw-text-200.tw-font-regular.tw-line-through. -/
  origPriceText : Option String
  /-- textContent of div.tw-text-200.tw-font-medium.tw-line-clamp-1. -/
  weightText : Option String
  /-- textContent of div.tw-text-050.tw-font-bold.tw-uppercase. -/
  deliveryText : Option String
  /-- textContent of the out-of-stock overlay element. -/
  outOfStockText : Option String
deriving DecidableEq

/-- The record shape variant B emits.  DOM-tier records carry every
field; preloaded-state records carry only productId, productName,
productImage, deliveryTime and currentPrice — the keys such a record
does not have are modelled as none (and isOutOfStock as false). -/
structure ProductB where
  productId : String
  productName : Option String
  productImage : Option String
  currentPrice : Option ℚ
  originalPrice : Option ℚ
  discountPercentage : Option Int
  productWeight : Option String
  deliveryTime : Option String
  isOutOfStock : Bool
  scrapedAt : Option String
deriving DecidableEq, Inhabited

/-- Product name of a variant B card (line 1248-1249). -/
def cardNameB (c : CardB) : Option String := c.nameText.map String.trim

/-- Current price of a variant B card (lines 1256-1264). -/
def cardPriceB (c : CardB) : Option ℚ :=
  c.priceText.bind (fun t => parsePriceText t.trim)

/-- Original (strikethrough) price of a variant B card (lines 1267-1275). -/
def cardOrigPriceB (c : CardB) : Option ℚ :=
  c.origPriceText.bind (fun t => parsePriceText t.trim)

/-- Discount computation shared by variants B and C (lines 1290-1293,
1833-1836): recompute only when both prices are truthy and the original
exceeds the current price. -/
def discountOf (cur orig : Option ℚ) : Option Int :=
  match cur, orig with
  | some c, some o => if c ≠ 0 ∧ o ≠ 0 ∧ c < o then some (jsRound ((o - c) / o * 100)) else none
  | _, _ => none

/-- Out-of-stock flag of a variant B card (lines 1286-1287, 1306). -/
def cardOutOfStockB (c : CardB) : Bool :=
  match c.outOfStockText with
  | some t => strIncludes t "Out of Stock"
  | none => false

/-- Emission guard of the variant B DOM tier (line 1296): keep the card
only if name, price or image is truthy. -/
def qualifiesB (c : CardB) : Bool :=
  strTruthy (cardNameB c) || numTruthy (cardPriceB c) || strTruthy c.imgSrc

/-- Record built from a qualifying variant B card; k is results.length
at push time, used for the synthetic productId fallback (line 1298). -/
def buildB (gdt : Option String) (ts : String) (k : ℕ) (c : CardB) : ProductB :=
  { productId := if c.id == "" then "blinkit-" ++ toString k else c.id
    productName := cardNameB c
    productImage := c.imgSrc
    currentPrice := cardPriceB c
    originalPrice := cardOrigPriceB c
    discountPercentage := discountOf (cardPriceB c) (cardOrigPriceB c)
    productWeight := c.weightText.map String.trim
    deliveryTime := jsOrS gdt (c.deliveryText.map String.trim)
    isOutOfStock := cardOutOfStockB c
    scrapedAt := some ts }

/-- The forEach loop over product cards with its results accumulator
(lines 1240-1313). -/
def domExtractGo (gdt : Option String) (ts : String) : List ProductB → List CardB → List ProductB
  | acc, [] => acc
  | acc, c :: rest =>
    domExtractGo gdt ts (if qualifiesB c then acc ++ [buildB gdt ts acc.length c] else acc) rest

/-- The variant B DOM extraction tier (lines 1237-1316). -/
def domExtractB (gdt : Option String) (ts : String) (cards : List CardB) : List ProductB :=
  domExtractGo gdt ts [] cards

/-- A candidate object found in the preloaded state blob (lines
1211-1215).  Each field is the value of the corresponding property
path; absent properties are none.  Values in these slots are modelled
as strings and numbers, which is the branch the typeof tests select. -/
structure Candidate where
  /-- c.title?.text -/
  titleText : Option String
  /-- c.name -/
  name : Option String
  /-- c.product_name -/
  productNameAlt : Option String
  /-- c.data?.title -/
  dataTitle : Option String
  /-- c.data?.name -/
  dataName : Option String
  /-- c.image?.url -/
  imageUrl : Option String
  /-- c.product_image -/
  productImageAlt : Option String
  /-- c.image_url -/
  imageUrlSnake : Option String
  /-- c.data?.image_url -/
  dataImageUrl : Option String
  /-- c.price -/
  price : Option ℚ
  /-- c.currentPrice -/
  currentPriceAlt : Option ℚ
  /-- c.current_price -/
  currentPriceSnake : Option ℚ
  /-- c.pricing?.price -/
  pricingPrice : Option ℚ
  /-- c.id -/
  id : Option String
  /-- c.productId -/
  productIdAlt : Option String
  /-- c.product_id -/
  productIdSnake : Option String
  /-- c.sku -/
  sku : Option String
deriving DecidableEq

/-- An entry of a widget item list: it.data || it (line 1205). -/
structure StateItem where
  data : Option Candidate
  /-- the item itself read as a candidate, used when it.data is falsy -/
  self : Candidate
deriving DecidableEq

/-- A widget of the widgetized layout; none models a widget whose
w.data.items is not an array (line 1204). -/
structure StateWidget where
  items : Option (List StateItem)
deriving DecidableEq

/-- window.grofers.PRELOADED_STATE.data, restricted to the three shapes
the code walks (lines 1195-1208). -/
structure PreloadedData where
  /-- data.search.results when it is an array -/
  searchResults : Option (List Candidate)
  /-- data.plp.products when it is an array -/
  plpProducts : Option (List Candidate)
  /-- data.widgetizedLayout.data when it is an array -/
  widgets : Option (List StateWidget)
deriving DecidableEq

/-- The candidates list accumulated from the preloaded state (lines
1195-1208), in push order. -/
def stateCandidates (d : PreloadedData) : List Candidate :=
  (d.searchResults.getD []) ++ (d.plpProducts.getD []) ++
    ((d.widgets.getD []).flatMap fun w => (w.items.getD []).map fun it => it.data.getD it.self)

/-- Normalization of one candidate (lines 1211-1223); i is its index in
the candidates array. -/
def normCand (gdt : Option String) (i : ℕ) (c : Candidate) : ProductB :=
  let title := jsOrS c.titleText (jsOrS c.name (jsOrS c.productNameAlt
    (jsOrS c.dataTitle (jsOrS c.dataName none))))
  let image := jsOrS c.imageUrl (jsOrS c.productImageAlt
    (jsOrS c.imageUrlSnake (jsOrS c.dataImageUrl none)))
  let price := jsOrQ c.price (jsOrQ c.currentPriceAlt
    (jsOrQ c.currentPriceSnake (jsOrQ c.pricingPrice none)))
  let pid := jsOrS c.id (jsOrS c.productIdAlt (jsOrS c.productIdSnake (jsOrS c.sku none)))
  { productId := pid.getD ("state-" ++ toString i)
    productName := title
    productImage := image
    currentPrice := price
    originalPrice := none
    discountPercentage := none
    productWeight := none
    deliveryTime := gdt
    isOutOfStock := false
    scrapedAt := none }

/-- Validity filter on normalized state records (line 1224). -/
def validB (p : ProductB) : Bool :=
  strTruthy p.productName || numTruthy p.currentPrice || strTruthy p.productImage

/-- The parsed list of the structured-state tier (lines 1211-1224). -/
def parsedState (gdt : Option String) (d : PreloadedData) : List ProductB :=
  ((stateCandidates d).enum.map fun p => normCand gdt p.1 p.2).filter validB

/-- A rendered page as variant B observes it: the optional preloaded
state blob and the DOM product cards. -/
structure PageB where
  preloaded : Option PreloadedData
  cards : List CardB

/-- extractSearchProducts of variant B (lines 1180-1329): the
structured-state tier is authoritative when it yields candidates that
parse to at least one valid record; otherwise the DOM tier runs. -/
def extractSearchProductsB (page : PageB) (gdt : Option String) (ts : String) : List ProductB :=
  match page.preloaded with
  | some d =>
    if (stateCandidates d).isEmpty then domExtractB gdt ts page.cards
    else
      let parsed := parsedState gdt d
      if parsed.isEmpty then domExtractB gdt ts page.cards else parsed
  | none => domExtractB gdt ts page.cards

/-! Variant A (enhanced Blinkit scraper): extractSearchProducts,
src/index.js lines 309-753.  The primary tier walks the strict product
card selector; a fallback tier over looser containers runs only when
the primary tier finds nothing. -/

/-- One price element matched by the price selector pair of line 435. -/
structure PriceElA where
  /-- raw textContent -/
  text : String
  /-- classList.contains of tw-line-through -/
  lineThrough : Bool
deriving DecidableEq

/-- One primary-tier product card (lines 329-606), as the values of its
per-field lookups.  For the image strategies, a some value is the
string the strategy would assign (possibly empty) and none means the
strategy finds nothing; a strategy whose element resolves to a JS null
value is also modelled as none, which is observationally equivalent
since every consumer only tests truthiness. -/
structure CardA where
  /-- item.id -/
  id : String
  /-- item.innerText || item.textContent -/
  allText : String
  /-- presence of div.tw-absolute.tw-bg-grey-500 -/
  hasGreyOverlay : Bool
  /-- presence of the dimmed image marker -/
  hasOpacityImg : Bool
  /-- presence of the dimmed container marker -/
  hasOpacityDivImg : Bool
  /-- textContents of the div.tw-absolute elements -/
  absDivTexts : List String
  /-- textContent of the title element -/
  titleText : Option String
  /-- strategy 1: cdn.grofers.com image, src attribute value -/
  imgCdn : Option String
  /-- strategy 2: any img, src value -/
  imgAny : Option String
  /-- strategy 3: lazy image, data-src value -/
  imgLazy : Option String
  /-- strategy 4: style attribute of the background-image div -/
  bgStyle : Option String
  /-- strategy 5: image inside the image container -/
  imgContainer : Option String
  /-- strategy 6: srcset attribute -/
  srcsetAttr : Option String
  /-- textContent of the weight element -/
  weightText : Option String
  /-- price elements in document order -/
  priceEls : List PriceElA
  /-- textContent of the strikethrough price element -/
  origPriceText : Option String
  /-- textContent of the delivery time element -/
  deliveryText : Option String
  /-- textContent of the rating element -/
  ratingText : Option String
  /-- textContents of the highlight elements -/
  highlightTexts : List String
  /-- textContents of the badge elements -/
  badgeTexts : List String
  /-- href of the first a[href*=/prn/] link -/
  linkHref : Option String
  /-- textContents of the div[role=button] descendants -/
  addButtonTexts : List String
  /-- textContents of the div.tw-text-050 elements -/
  smallTexts : List String
deriving DecidableEq

/-- The record shape variant A emits.  Fallback-tier records carry a
subset of the keys; such absent keys are modelled as none. -/
structure ProductA where
  productId : String
  productName : Option String
  productUrl : Option String
  productImage : Option String
  currentPrice : Option ℚ
  originalPrice : Option ℚ
  discountPercentage : Option Int
  savings : Option ℚ
  productWeight : Option String
  isOutOfStock : Bool
  stockMessage : Option String
  deliveryTime : Option String
  rating : Option ℚ
  highlights : Option (List String)
  badges : Option (List String)
  hasVariants : Option Bool
  variantCount : Option Int
  rawText : Option String
  scrapedAt : String
deriving DecidableEq, Inhabited

/-- Out-of-stock disjunction of signals (lines 339-348). -/
def isOutOfStockA (c : CardA) : Bool :=
  strIncludes c.allText "Out of Stock" || c.hasGreyOverlay || c.hasOpacityImg ||
    c.hasOpacityDivImg || c.absDivTexts.any (fun t => strIncludes t "Out of Stock")

/-- Product name (lines 351-352). -/
def productNameA (c : CardA) : Option String := c.titleText.map String.trim

/-- One step of the image strategy chain: when the current value is
falsy and the strategy yields a value, take it. -/
def imgStep (cur next : Option String) : Option String :=
  if strTruthy cur then cur
  else match next with
    | some v => some v
    | none => cur

/-- URL normalization of a found image (lines 414-427): make
protocol-relative and root-relative URLs absolute, then upgrade the
resolution width parameter (first occurrence, as JS replace does). -/
def normalizeImageUrl (v : String) : String :=
  let abs :=
    if v.startsWith "//" then "https:" ++ v
    else if v.startsWith "/" then "https://blinkit.com" ++ v
    else v
  if strIncludes abs "w=270" then replaceFirst abs "w=270" "w=540"
  else if strIncludes abs "w=135" then replaceFirst abs "w=135" "w=540"
  else abs

/-- The six-strategy image chain of the primary tier (lines 356-428),
followed by URL normalization when an image was found. -/
def imageChainA (c : CardA) : Option String :=
  let p1 := match c.imgCdn with
    | some v => some v
    | none => none
  let p2 := imgStep p1 c.imgAny
  let p3 := imgStep p2 c.imgLazy
  let p4 :=
    if strTruthy p3 then p3
    else match c.bgStyle with
      | some st =>
        match scanBgUrl st.data with
        | some cap => if cap.isEmpty then p3 else some (String.mk cap)
        | none => p3
      | none => p3
  let p5 := imgStep p4 c.imgContainer
  let p6 :=
    if strTruthy p5 then p5
    else match c.srcsetAttr with
      | some ss =>
        if ss == "" then p5
        else some ((((ss.splitOn ",").headD "").trim.splitOn " ").headD "")
      | none => p5
  if strTruthy p6 then (p6.map normalizeImageUrl) else p6

/-- The current-price loop over the price elements (lines 439-447):
take the first ₹-marked, non-strikethrough price while the accumulator
is still falsy. -/
def currentPriceA (els : List PriceElA) : Option ℚ :=
  els.foldl
    (fun cur el =>
      if strIncludes el.text.trim "₹" && !el.lineThrough then
        match parsePriceText el.text.trim with
        | some v => if numTruthy cur then cur else some v
        | none => cur
      else cur)
    none

/-- Original price from the strikethrough element (lines 450-457). -/
def originalPriceA (c : CardA) : Option ℚ :=
  c.origPriceText.bind (fun t => parsePriceText t.trim)

/-- Discount derivation of variant A (lines 460-471): a % OFF badge in
the card text takes precedence; only when it is absent (or parses to 0)
is the discount recomputed from the two prices. -/
def discountA (allText : String) (cur orig : Option ℚ) : Option Int :=
  let fromBadge : Option Int := (scanPercentOff allText.data).map (fun ds => (natOfDigits ds : Int))
  if intTruthy fromBadge then fromBadge
  else
    match cur, orig with
    | some c, some o =>
      if c ≠ 0 ∧ o ≠ 0 ∧ c < o then some (jsRound ((o - c) / o * 100)) else fromBadge
    | _, _ => fromBadge

/-- Delivery time (lines 474-483). -/
def deliveryTimeA (c : CardA) : Option String :=
  match c.deliveryText with
  | some t => some t.trim
  | none => (scanMins c.allText.data).map String.mk

/-- Rating (lines 486-494). -/
def ratingA (c : CardA) : Option ℚ :=
  c.ratingText.bind (fun t => (scanNum t.trim.data).map ratOfCapture)

/-- Highlights accumulation (lines 497-504). -/
def highlightsA (c : CardA) : List String :=
  c.highlightTexts.foldl
    (fun acc t0 =>
      let t := t0.trim
      if !(t == "") && !strIncludes t "₹" && !strIncludes t "MINS" then acc ++ [t] else acc)
    []

/-- Badges accumulation with its duplicate check (lines 507-514). -/
def badgesA (c : CardA) : List String :=
  c.badgeTexts.foldl
    (fun acc t0 =>
      let t := t0.trim
      if !(t == "") && !acc.contains t then acc ++ [t] else acc)
    []

/-- Product URL (lines 517-525). -/
def productUrlA (c : CardA) : Option String :=
  match c.linkHref with
  | some h => some h
  | none =>
    if !(c.id == "") && strTruthy (productNameA c) then
      some ("https://blinkit.com/prn/" ++ createSlug ((productNameA c).getD "") ++
        "/prid/" ++ c.id)
    else none

/-- Stock message (lines 528-537). -/
def stockMessageA (c : CardA) : Option String :=
  if isOutOfStockA c then some "Out of Stock"
  else if c.addButtonTexts.any (fun t => strIncludes t "ADD") then some "In Stock"
  else none

/-- The small text matched by the variant probe (lines 542-543). -/
def variantElementA (c : CardA) : Option String :=
  c.smallTexts.find? (fun t => (scanOptionCount t.data).isSome)

/-- Emission guard of the primary tier (line 564): the candidate is
kept when name, price, image or the DOM id is truthy. -/
def emitGuardA (c : CardA) : Bool :=
  strTruthy (productNameA c) || numTruthy (currentPriceA c.priceEls) ||
    strTruthy (imageChainA c) || !(c.id == "")

/-- The record a qualifying primary-tier card produces (lines 565-598);
i is the forEach index, used by the synthetic productId fallback. -/
def buildA (ts : String) (i : ℕ) (c : CardA) : ProductA :=
  let cur := currentPriceA c.priceEls
  let orig := originalPriceA c
  { productId := if c.id == "" then "product-" ++ toString i else c.id
    productName := productNameA c
    productUrl := productUrlA c
    productImage := imageChainA c
    currentPrice := cur
    originalPrice := orig
    discountPercentage := discountA c.allText cur orig
    savings :=
      match cur, orig with
      | some cv, some ov => if cv ≠ 0 ∧ ov ≠ 0 ∧ cv < ov then some (ov - cv) else none
      | _, _ => none
    productWeight := c.weightText.map String.trim
    isOutOfStock := isOutOfStockA c
    stockMessage := stockMessageA c
    deliveryTime := deliveryTimeA c
    rating := ratingA c
    highlights := if (highlightsA c).isEmpty then none else some (highlightsA c)
    badges := if (badgesA c).isEmpty then none else some (badgesA c)
    hasVariants := some (variantElementA c).isSome
    variantCount :=
      (variantElementA c).bind (fun t => (scanOptionCount t.data).map (fun ds => (natOfDigits ds : Int)))
    rawText := some (collapseWsTrim c.allText)
    scrapedAt := ts }

/-- The primary extraction tier (lines 326-610). -/
def primaryExtractA (ts : String) (cards : List CardA) : List ProductA :=
  (cards.enum.filter fun p => emitGuardA p.2).map fun p => buildA ts p.1 p.2

/-- One fallback-tier container (lines 616-705). -/
structure FbCardA where
  /-- item.id -/
  id : String
  /-- item.innerText || item.textContent -/
  allText : String
  /-- textContent of the title element; some means the element exists -/
  titleText : Option String
  /-- textContent of the price element -/
  priceText : Option String
  /-- cdn image value -/
  img1 : Option String
  /-- any-img branch: outer layer is element presence, inner the value -/
  img2 : Option (Option String)
  /-- data-src attribute of the img[data-src] element -/
  img3 : Option String
  /-- srcset attribute -/
  srcsetAttr : Option String
  /-- textContent of the weight element -/
  weightText : Option String
deriving DecidableEq

/-- The else-if image chain plus srcset fallback of the fallback tier
(lines 640-680), with the shared URL normalization. -/
def fbImageA (c : FbCardA) : Option String :=
  let v : Option String :=
    match c.img1 with
    | some v1 => some v1
    | none =>
      match c.img2 with
      | some v2 => v2
      | none =>
        match c.img3 with
        | some v3 => some v3
        | none => none
  let v2 :=
    if strTruthy v then v
    else match c.srcsetAttr with
      | some ss =>
        if ss == "" then v
        else some ((((ss.splitOn ",").headD "").trim.splitOn " ").headD "")
      | none => v
  if strTruthy v2 then v2.map normalizeImageUrl else v2

/-- The record a fallback-tier container with a title produces (lines
629-698). -/
def buildFbA (ts : String) (i : ℕ) (c : FbCardA) : ProductA :=
  let nm := (c.titleText.getD "").trim
  let oos := strIncludes c.allText "Out of Stock"
  let pid := if c.id == "" then "fallback-" ++ toString i else c.id
  { productId := pid
    productName := some nm
    productUrl := some ("https://blinkit.com/prn/" ++ createSlug nm ++ "/prid/" ++ pid)
    productImage := fbImageA c
    currentPrice := c.priceText.bind (fun t => parsePriceText t.trim)
    originalPrice := none
    discountPercentage := none
    savings := none
    productWeight := c.weightText.map String.trim
    isOutOfStock := oos
    stockMessage := some (if oos then "Out of Stock" else "In Stock")
    deliveryTime := none
    rating := none
    highlights := none
    badges := none
    hasVariants := none
    variantCount := none
    rawText := none
    scrapedAt := ts }

/-- The fallback tier (lines 613-706): containers are kept when the
title element exists. -/
def fallbackExtractA (ts : String) (cards : List FbCardA) : List ProductA :=
  (cards.enum.filter fun p => p.2.titleText.isSome).map fun p => buildFbA ts p.1 p.2

/-- A rendered page as variant A observes it. -/
structure PageA where
  cards : List CardA
  altCards : List FbCardA

/-- extractSearchProducts of variant A (lines 309-753): the fallback
tier runs only when the primary tier produced nothing. -/
def extractSearchProductsA (page : PageA) (ts : String) : List ProductA :=
  let primary := primaryExtractA ts page.cards
  if primary.isEmpty then fallbackExtractA ts page.altCards else primary

/-- A rendered page that also carries the embedded structured state
blob (window.grofers.PRELOADED_STATE.data), alongside the DOM variant A
observes.  Variant A's extractSearchProducts contains no page.evaluate
that reads this blob. -/
structure PageWithStateA where
  preloaded : Option PreloadedData
  cards : List CardA
  altCards : List FbCardA

/-- What variant A computes on such a page: its code (lines 309-753)
reads only the DOM tiers, so the structured state is never consulted
and the DOM extraction always runs. -/
def extractOnStatePageA (page : PageWithStateA) (ts : String) : List ProductA :=
  extractSearchProductsA ⟨page.cards, page.altCards⟩ ts

/-! The auto-scroll loops.  autoScroll of variant A (src/index.js lines
32-69) and of variants B and C (lines 1130-1141, 1708-1719) are plain
counted for-loops: each iteration issues one scroll action and waits a
fixed settle interval, and after the loop the page is scrolled back to
the top.  No element count, target count or stability threshold occurs
anywhere in them.  The page is modelled with the action trace performed
so far together with the matched-element count sequence the DOM would
expose after a given number of scroll actions; the latter is carried
only so that theorems can quantify over it. -/

/-- A page action the scroll loops can issue. -/
inductive ScrollAct where
  | containerScroll
  | windowScroll
  | scrollTop
deriving DecidableEq

/-- A page under scrolling: the actions issued so far and the
matched-element count visible after k scroll actions.  The loops never
read counts. -/
structure ScrollPage where
  actions : List ScrollAct
  counts : ℕ → ℕ

/-- Number of scroll iterations recorded in a trace (the final
scroll-to-top is not an iteration). -/
def countScrolls (p : ScrollPage) : ℕ :=
  (p.actions.filter fun a => !(a == ScrollAct.scrollTop)).length

/-- One iteration of the variant A loop body (lines 37-55): scroll the
container when a selector was supplied and the container exists,
otherwise scroll the window. -/
def scrollIterA (hasSelector containerFound : Bool) (p : ScrollPage) : ScrollPage :=
  if hasSelector && containerFound then { p with actions := p.actions ++ [ScrollAct.containerScroll] }
  else { p with actions := p.actions ++ [ScrollAct.windowScroll] }

/-- autoScroll of variant A (lines 32-69): a for-loop of exactly
scrollCount iterations followed by a scroll back to the top. -/
def autoScrollA (hasSelector containerFound : Bool) : ℕ → ScrollPage → ScrollPage
  | 0, p => { p with actions := p.actions ++ [ScrollAct.scrollTop] }
  | n + 1, p => autoScrollA hasSelector containerFound n (scrollIterA hasSelector containerFound p)

/-- autoScroll of variants B and C (lines 1130-1141 and 1708-1719): a
for-loop of exactly scrollCount window scrolls followed by a scroll
back to the top. -/
def autoScrollBC : ℕ → ScrollPage → ScrollPage
  | 0, p => { p with actions := p.actions ++ [ScrollAct.scrollTop] }
  | n + 1, p => autoScrollBC n { p with actions := p.actions ++ [ScrollAct.windowScroll] }

/-! Location setup across the orchestrated session.  The three request
handlers differ: variant A (line 819) awaits setLocation on every
request; variant B (lines 1387-1390) guards the call with the
isFirstRequest flag of the request userData; variant C (lines
1938-1942) guards it with its isFirst flag and a global
locationSetGlobally boolean. -/

/-- A queued request with the first-URL marker its userData carries
(variant B line 1502, variant C line 2030). -/
structure RequestUD where
  url : String
  isFirstRequest : Bool
deriving DecidableEq

/-- The request list built from the target URLs: the flag marks
index 0. -/
def mkRequests : List String → List RequestUD
  | [] => []
  | u :: rest => ⟨u, true⟩ :: rest.map (fun v => ⟨v, false⟩)

/-- setLocation invocations in one variant A handler run: the call at
line 819 is unconditional. -/
def handlerLocA (_ : String) : ℕ := 1

/-- setLocation invocations over a variant A session. -/
def sessionLocCallsA (urls : List String) : ℕ :=
  (urls.map handlerLocA).sum

/-- setDeliveryLocation invocations in one variant B handler run
(lines 1387-1390): only when a pincode or location was configured and
the request is the first. -/
def handlerLocB (hasLocationInput : Bool) (r : RequestUD) : ℕ :=
  if hasLocationInput && r.isFirstRequest then 1 else 0

/-- setDeliveryLocation invocations over a variant B session. -/
def sessionLocCallsB (urls : List String) (hasLocationInput : Bool) : ℕ :=
  ((mkRequests urls).map (handlerLocB hasLocationInput)).sum

/-- One variant C handler step (lines 1938-1942): call
setPincodeLocation when the request is first and the global flag is
unset, storing the call outcome in the flag. -/
def handlerStepC (locOutcome : Bool) (st : Bool) (r : RequestUD) : ℕ × Bool :=
  if r.isFirstRequest && !st then (1, locOutcome) else (0, st)

/-- setPincodeLocation invocations over a variant C session, threading
the locationSetGlobally flag (initially false, line 2018). -/
def sessionLocCallsC (urls : List String) (locOutcome : Bool) : ℕ :=
  ((mkRequests urls).foldl
    (fun acc r =>
      let s := handlerStepC locOutcome acc.2 r
      (acc.1 + s.1, s.2))
    ((0 : ℕ), false)).1

/-! Metadata annotation before the sink.  Variant A (lines 869-885)
mutates each of the first maxProductsPerSearch records, adding
searchQuery, searchUrl, platform and requestedPincode; variant B
(lines 1448-1456) spreads each record into a new object with
searchQuery, requestedPincode, deliveryLocation and platform added.
Neither writes to any key the extractor produced. -/

/-- Request-scoped metadata of a variant B handler run. -/
structure MetaB where
  searchQuery : Option String
  requestedPincode : Option String
  deliveryLocation : String
deriving DecidableEq

/-- A record as variant B hands it to the sink. -/
structure SavedProductB extends ProductB where
  searchQuery : Option String
  requestedPincode : Option String
  deliveryLocation : String
  platform : String
deriving DecidableEq

/-- The spread-based annotation of variant B (lines 1448-1454). -/
def annotateB (m : MetaB) (p : ProductB) : SavedProductB :=
  { p with
    searchQuery := m.searchQuery
    requestedPincode := m.requestedPincode
    deliveryLocation := m.deliveryLocation
    platform := "Blinkit" }

/-- productsToSave of variant B (line 1448): truncate, then annotate
every record. -/
def productsToSaveB (products : List ProductB) (maxPerSearch : ℕ) (m : MetaB) : List SavedProductB :=
  (products.take maxPerSearch).map (annotateB m)

/-- Request-scoped metadata of a variant A handler run. -/
structure MetaA where
  searchQuery : Option String
  searchUrl : String
  requestedPincode : String
deriving DecidableEq

/-- A record as variant A pushes it to the dataset. -/
structure SavedProductA extends ProductA where
  searchQuery : Option String
  searchUrl : String
  platform : String
  requestedPincode : String
deriving DecidableEq

/-- The mutation-based annotation of variant A (lines 871-874). -/
def annotateA (m : MetaA) (p : ProductA) : SavedProductA :=
  { p with
    searchQuery := m.searchQuery
    searchUrl := m.searchUrl
    platform := "Blinkit"
    requestedPincode := m.requestedPincode }

/-- The records variant A pushes (lines 870-877): the first
maxProductsPerSearch records, each annotated. -/
def productsToSaveA (products : List ProductA) (maxPerSearch : ℕ) (m : MetaA) : List SavedProductA :=
  (products.take maxPerSearch).map (annotateA m)

/-! Helper lemmas. -/

lemma strTruthy_ne_none {o : Option String} (h : strTruthy o = true) : o ≠ none := by
  cases o with
  | none => simp [strTruthy] at h
  | some s => simp

lemma numTruthy_ne_none {o : Option ℚ} (h : numTruthy o = true) : o ≠ none := by
  cases o with
  | none => simp [numTruthy] at h
  | some q => simp

lemma ratOfCapture_nonneg (l : List Char) : 0 ≤ ratOfCapture l := by
  unfold ratOfCapture
  dsimp only
  split
  · positivity
  · positivity

lemma parsePriceText_nonneg {s : String} {q : ℚ} (h : parsePriceText s = some q) : 0 ≤ q := by
  unfold parsePriceText at h
  rw [Option.map_eq_some'] at h
  obtain ⟨cap, _, rfl⟩ := h
  exact ratOfCapture_nonneg cap

lemma cardPriceB_nonneg {c : CardB} {q : ℚ} (h : cardPriceB c = some q) : 0 ≤ q := by
  unfold cardPriceB at h
  cases ht : c.priceText with
  | none => rw [ht] at h; simp at h
  | some t => rw [ht] at h; exact parsePriceText_nonneg h

lemma cardOrigPriceB_nonneg {c : CardB} {q : ℚ} (h : cardOrigPriceB c = some q) : 0 ≤ q := by
  unfold cardOrigPriceB at h
  cases ht : c.origPriceText with
  | none => rw [ht] at h; simp at h
  | some t => rw [ht] at h; exact parsePriceText_nonneg h

lemma scanRupee_eq_none {l : List Char} (h : ∀ c ∈ l, ¬(c = '₹')) : scanRupee l = none := by
  induction l with
  | nil => rfl
  | cons c rest ih =>
    have hc : ¬(c = '₹') := h c (List.mem_cons_self c rest)
    simp only [scanRupee]
    rw [if_neg (by simpa using hc)]
    exact ih fun x hx => h x (List.mem_cons_of_mem c hx)

lemma jsRound_nonneg {x : ℚ} (h0 : 0 < x) : 0 ≤ jsRound x := by
  unfold jsRound
  have : (0 : ℚ) ≤ x + 1/2 := by linarith
  exact Int.floor_nonneg.mpr this

lemma jsRound_le_100 {x : ℚ} (h1 : x < 100) : jsRound x ≤ 100 := by
  unfold jsRound
  have h : x + 1/2 < ((101 : ℤ) : ℚ) := by push_cast; linarith
  have := Int.floor_lt.mpr h
  omega

lemma mem_domExtractGo {gdt : Option String} {ts : String} {r : ProductB} :
    ∀ (cards : List CardB) (acc : List ProductB), r ∈ domExtractGo gdt ts acc cards →
      r ∈ acc ∨ ∃ k c, c ∈ cards ∧ qualifiesB c = true ∧ r = buildB gdt ts k c := by
  intro cards
  induction cards with
  | nil => intro acc h; exact Or.inl h
  | cons c rest ih =>
    intro acc h
    simp only [domExtractGo] at h
    rcases ih _ h with hmem | ⟨k, c2, hc2, hq, hr⟩
    · by_cases hq : qualifiesB c = true
      · rw [if_pos hq] at hmem
        rcases List.mem_append.mp hmem with h1 | h2
        · exact Or.inl h1
        · refine Or.inr ⟨acc.length, c, List.mem_cons_self c rest, hq, ?_⟩
          simpa using h2
      · rw [if_neg hq] at hmem
        exact Or.inl hmem
    · exact Or.inr ⟨k, c2, List.mem_cons_of_mem c hc2, hq, hr⟩

lemma length_domExtractGo {gdt : Option String} {ts : String} :
    ∀ (cards : List CardB) (acc : List ProductB),
      (domExtractGo gdt ts acc cards).length = acc.length + (cards.filter qualifiesB).length := by
  intro cards
  induction cards with
  | nil => intro acc; simp [domExtractGo]
  | cons c rest ih =>
    intro acc
    simp only [domExtractGo]
    rw [ih]
    by_cases hq : qualifiesB c = true
    · rw [if_pos hq, List.filter_cons_of_pos hq]
      simp only [List.length_append, List.length_cons, List.length_nil]
      omega
    · rw [if_neg hq, List.filter_cons_of_neg hq]

/-- Erase the capture timestamp of a record. -/
def stripTs (p : ProductB) : ProductB := { p with scrapedAt := none }

lemma stripTs_buildB (gdt : Option String) (t1 t2 : String) (k : ℕ) (c : CardB) :
    stripTs (buildB gdt t1 k c) = stripTs (buildB gdt t2 k c) := rfl

lemma domExtractGo_stripTs {gdt : Option String} {t1 t2 : String} :
    ∀ (cards : List CardB) (acc1 acc2 : List ProductB),
      acc1.map stripTs = acc2.map stripTs →
      (domExtractGo gdt t1 acc1 cards).map stripTs = (domExtractGo gdt t2 acc2 cards).map stripTs := by
  intro cards
  induction cards with
  | nil => intro acc1 acc2 h; simpa [domExtractGo] using h
  | cons c rest ih =>
    intro acc1 acc2 h
    have hlen : acc1.length = acc2.length := by
      have := congrArg List.length h
      simpa using this
    simp only [domExtractGo]
    apply ih
    by_cases hq : qualifiesB c = true
    · rw [if_pos hq, if_pos hq]
      rw [List.map_append, List.map_append, h, hlen]
      rw [List.map_singleton, List.map_singleton, stripTs_buildB gdt t1 t2]
    · rw [if_neg hq, if_neg hq]; exact h

lemma parsedState_of_empty {gdt : Option String} {d : PreloadedData}
    (h : stateCandidates d = []) : parsedState gdt d = [] := by
  unfold parsedState
  rw [h]
  rfl

lemma countScrolls_append_scrollTop (p : ScrollPage) (c : ℕ → ℕ) :
    countScrolls ⟨p.actions ++ [ScrollAct.scrollTop], c⟩ = countScrolls p := by
  simp [countScrolls, List.filter_append]

lemma countScrolls_autoScrollBC : ∀ (n : ℕ) (p : ScrollPage),
    countScrolls (autoScrollBC n p) = countScrolls p + n := by
  intro n
  induction n with
  | zero =>
    intro p
    simpa [autoScrollBC] using countScrolls_append_scrollTop p p.counts
  | succ m ih =>
    intro p
    simp only [autoScrollBC]
    rw [ih]
    simp [countScrolls, List.filter_append, ScrollAct]
    omega

lemma countScrolls_scrollIterA (hs hc : Bool) (p : ScrollPage) :
    countScrolls (scrollIterA hs hc p) = countScrolls p + 1 := by
  unfold scrollIterA
  by_cases h : (hs && hc) = true
  · rw [if_pos h]; simp [countScrolls, List.filter_append]
  · rw [if_neg h]; simp [countScrolls, List.filter_append]

lemma countScrolls_autoScrollA (hs hc : Bool) : ∀ (n : ℕ) (p : ScrollPage),
    countScrolls (autoScrollA hs hc n p) = countScrolls p + n := by
  intro n
  induction n with
  | zero =>
    intro p
    simpa [autoScrollA] using countScrolls_append_scrollTop p p.counts
  | succ m ih =>
    intro p
    simp only [autoScrollA]
    rw [ih, countScrolls_scrollIterA]
    omega

lemma autoScrollBC_actions_counts_indep : ∀ (n : ℕ) (a : List ScrollAct) (c1 c2 : ℕ → ℕ),
    (autoScrollBC n ⟨a, c1⟩).actions = (autoScrollBC n ⟨a, c2⟩).actions := by
  intro n
  induction n with
  | zero => intro a c1 c2; rfl
  | succ m ih =>
    intro a c1 c2
    simp only [autoScrollBC]
    exact ih (a ++ [ScrollAct.windowScroll]) c1 c2

lemma sum_map_handlerLocB_false (b : Bool) (l : List String) :
    ((l.map (fun v => RequestUD.mk v false)).map (handlerLocB b)).sum = 0 := by
  induction l with
  | nil => rfl
  | cons u rest ih => simpa [handlerLocB] using ih

lemma sessionLocCallsA_eq_length (urls : List String) : sessionLocCallsA urls = urls.length := by
  unfold sessionLocCallsA
  induction urls with
  | nil => rfl
  | cons u rest ih =>
    simp only [List.map_cons, List.sum_cons, List.length_cons]
    rw [ih]
    simp [handlerLocA]
    omega

lemma sessionLocCallsB_le_one (urls : List String) (b : Bool) :
    sessionLocCallsB urls b ≤ 1 := by
  cases urls with
  | nil => simp [sessionLocCallsB, mkRequests]
  | cons u rest =>
    unfold sessionLocCallsB mkRequests
    simp only [List.map_cons, List.sum_cons]
    rw [sum_map_handlerLocB_false b rest]
    cases b with
    | false => simp [handlerLocB]
    | true => simp [handlerLocB]

lemma foldl_handlerStepC_false (o : Bool) : ∀ (xs : List String) (n : ℕ) (st : Bool),
    (xs.map (fun v => RequestUD.mk v false)).foldl
      (fun acc r =>
        let s := handlerStepC o acc.2 r
        (acc.1 + s.1, s.2))
      ((n : ℕ), st) = (n, st) := by
  intro xs
  induction xs with
  | nil => intro n st; rfl
  | cons x rest ih =>
    intro n st
    simp only [List.map_cons, List.foldl_cons]
    have hstep : handlerStepC o st (RequestUD.mk x false) = (0, st) := by
      simp [handlerStepC]
    simp only [hstep]
    exact ih n st

lemma sessionLocCallsC_le_one (urls : List String) (o : Bool) :
    sessionLocCallsC urls o ≤ 1 := by
  cases urls with
  | nil => simp [sessionLocCallsC, mkRequests]
  | cons u rest =>
    unfold sessionLocCallsC mkRequests
    simp only [List.foldl_cons]
    have hstep : handlerStepC o false (RequestUD.mk u true) = (1, o) := by
      simp [handlerStepC]
    simp only [hstep]
    rw [foldl_handlerStepC_false o rest 1 o]

/-! Claim theorems. -/

/-- Claim C3 is refuted: the scroll loop never measures the
matched-element count and has no Done transition.  On a page whose
matched-element count is 40 from the very first read — already at any
target of at most 40 and perfectly stable — the variants B and C loop
invoked with scrollCount 5 still performs all 5 scroll iterations,
while the claimed controller would have stopped after at most 3
consecutive stable reads (and immediately for targetCount ≤ 40). -/
theorem c3_counterexample :
    countScrolls (autoScrollBC 5 ⟨[], fun _ => 40⟩) = 5 ∧
      ¬ countScrolls (autoScrollBC 5 ⟨[], fun _ => 40⟩) ≤ 3 := by
  exact ⟨by decide, by decide⟩

/-- Claim C3 amended: autoScroll is a fixed counted loop.  It performs
exactly scrollCount scroll iterations, its action trace is independent
of the count sequence the page exposes (the count is never read), and
there is no target-count or stability-based early exit. -/
theorem c3_amended_fixed_iterations (n : ℕ) (a : List ScrollAct) (c1 c2 : ℕ → ℕ) :
    (autoScrollBC n ⟨a, c1⟩).actions = (autoScrollBC n ⟨a, c2⟩).actions ∧
      countScrolls (autoScrollBC n ⟨a, c1⟩) = countScrolls ⟨a, c1⟩ + n :=
  ⟨autoScrollBC_actions_counts_indep n a c1 c2, countScrolls_autoScrollBC n ⟨a, c1⟩⟩

/-- Claim C4: for every count sequence the page may produce, the scroll
loop performs at most its configured number of iterations and then
terminates.  Both loop variants add exactly scrollCount scroll actions
to the trace — hence at most scrollCount — for every page, and being
total Lean functions they terminate.  The bound parameter is called
scrollCount in the code (defaults 5 and 3), playing the role the spec
calls maxIterations. -/
theorem c4_scroll_bounded (scrollCount : ℕ) (p : ScrollPage) (hasSelector containerFound : Bool) :
    countScrolls (autoScrollBC scrollCount p) ≤ countScrolls p + scrollCount ∧
      countScrolls (autoScrollA hasSelector containerFound scrollCount p) ≤
        countScrolls p + scrollCount :=
  ⟨le_of_eq (countScrolls_autoScrollBC scrollCount p),
    le_of_eq (countScrolls_autoScrollA hasSelector containerFound scrollCount p)⟩

/-- Claim C6 is refuted by variant A: its request handler awaits
setLocation unconditionally (line 819), so a session over two target
URLs runs the location setup twice, not at most once. -/
theorem c6_counterexample :
    sessionLocCallsA ["https://blinkit.com/s/?q=milk", "https://blinkit.com/s/?q=bread"] = 2 ∧
      ¬ sessionLocCallsA ["https://blinkit.com/s/?q=milk", "https://blinkit.com/s/?q=bread"] ≤ 1 := by
  exact ⟨by decide, by decide⟩

/-- Claim C6 amended: variants B and C run the location setup at most
once per session — only the request flagged as first can trigger it —
while variant A invokes setLocation once for every target URL of the
session. -/
theorem c6_amended_location_once (urls : List String) (hasLocationInput locOutcome : Bool) :
    sessionLocCallsA urls = urls.length ∧
      sessionLocCallsB urls hasLocationInput ≤ 1 ∧
      sessionLocCallsC urls locOutcome ≤ 1 :=
  ⟨sessionLocCallsA_eq_length urls, sessionLocCallsB_le_one urls hasLocationInput,
    sessionLocCallsC_le_one urls locOutcome⟩

/-- A variant B card used to exhibit duplicated productIds. -/
def c7card : CardB :=
  { id := "prd-42", nameText := some "Amul Gold Milk", imgSrc := none, priceText := none,
    origPriceText := none, weightText := none, deliveryText := none, outOfStockText := none }

/-- Claim C7 is refuted: no extractor in the repository deduplicates by
productId.  Two DOM cards carrying the same id yield two records with
the same productId in the returned list. -/
theorem c7_counterexample :
    (domExtractB none "2024-01-01T00:00:00Z" [c7card, c7card]).map ProductB.productId =
        ["prd-42", "prd-42"] ∧
      ¬ ((domExtractB none "2024-01-01T00:00:00Z" [c7card, c7card]).map
          ProductB.productId).Nodup := by
  exact ⟨by with_unfolding_all decide, by with_unfolding_all decide⟩

/-- Claim C7 amended: the variant B DOM tier performs no deduplication
at all: it emits exactly one record per qualifying container, so
containers sharing a derived productId each contribute their own
record. -/
theorem c7_amended_no_dedup (cards : List CardB) (gdt : Option String) (ts : String) :
    (domExtractB gdt ts cards).length = (cards.filter qualifiesB).length := by
  unfold domExtractB
  simpa using length_domExtractGo cards []

/-- A variant B card used for the idempotence counterexample. -/
def c8card : CardB :=
  { id := "prd-8", nameText := some "Tata Salt", imgSrc := none, priceText := none,
    origPriceText := none, weightText := none, deliveryText := none, outOfStockText := none }

/-- A page holding only that card. -/
def c8page : PageB := { preloaded := none, cards := [c8card] }

/-- Claim C8 is refuted: every DOM-tier record carries scrapedAt, the
wall-clock capture time, so two runs of the extractor over the
unchanged snapshot at different instants yield records that differ in
that field — the full record sets are not equal, not even up to
order. -/
theorem c8_counterexample :
    (extractSearchProductsB c8page none "2024-01-01T00:00:00Z").map ProductB.scrapedAt =
        [some "2024-01-01T00:00:00Z"] ∧
      (extractSearchProductsB c8page none "2024-01-02T00:00:00Z").map ProductB.scrapedAt =
        [some "2024-01-02T00:00:00Z"] ∧
      (extractSearchProductsB c8page none "2024-01-01T00:00:00Z").toFinset ≠
        (extractSearchProductsB c8page none "2024-01-02T00:00:00Z").toFinset := by
  exact ⟨by with_unfolding_all decide, by with_unfolding_all decide, by with_unfolding_all decide⟩

/-- Claim C8 amended: the extractor is deterministic up to the
scrapedAt capture timestamp: two runs over an unchanged snapshot yield
lists that agree element by element once scrapedAt is erased (and are
outright identical when the timestamps coincide). -/
theorem c8_amended_idempotent_mod_timestamp (page : PageB) (gdt : Option String)
    (t1 t2 : String) :
    (extractSearchProductsB page gdt t1).map stripTs =
      (extractSearchProductsB page gdt t2).map stripTs := by
  obtain ⟨pre, cards⟩ := page
  cases pre with
  | none => exact domExtractGo_stripTs cards [] [] rfl
  | some d =>
    have h1 : extractSearchProductsB ⟨some d, cards⟩ gdt t1 =
        (if (stateCandidates d).isEmpty then domExtractB gdt t1 cards
          else if (parsedState gdt d).isEmpty then domExtractB gdt t1 cards
            else parsedState gdt d) := rfl
    have h2 : extractSearchProductsB ⟨some d, cards⟩ gdt t2 =
        (if (stateCandidates d).isEmpty then domExtractB gdt t2 cards
          else if (parsedState gdt d).isEmpty then domExtractB gdt t2 cards
            else parsedState gdt d) := rfl
    rw [h1, h2]
    by_cases hcs : (stateCandidates d).isEmpty = true
    · rw [if_pos hcs, if_pos hcs]
      exact domExtractGo_stripTs cards [] [] rfl
    · rw [if_neg hcs, if_neg hcs]
      by_cases hpe : (parsedState gdt d).isEmpty = true
      · rw [if_pos hpe, if_pos hpe]
        exact domExtractGo_stripTs cards [] [] rfl
      · rw [if_neg hpe, if_neg hpe]

lemma extractA_singleton (c : CardA) (ts : String) :
    extractSearchProductsA ⟨[c], []⟩ ts =
      if emitGuardA c = true then [buildA ts 0 c] else [] := by
  unfold extractSearchProductsA primaryExtractA fallbackExtractA
  by_cases hg : emitGuardA c = true
  · rw [if_pos hg]
    simp [List.enum, List.enumFrom, hg]
  · rw [if_neg hg]
    rw [Bool.not_eq_true] at hg
    simp [List.enum, List.enumFrom, hg]

/-- A variant A card carrying only a DOM id: no title, image, price or
any other signal. -/
def c1card : CardA :=
  { id := "prd-777", allText := "", hasGreyOverlay := false, hasOpacityImg := false,
    hasOpacityDivImg := false, absDivTexts := [], titleText := none, imgCdn := none,
    imgAny := none, imgLazy := none, bgStyle := none, imgContainer := none,
    srcsetAttr := none, weightText := none, priceEls := [], origPriceText := none,
    deliveryText := none, ratingText := none, highlightTexts := [], badgeTexts := [],
    linkHref := none, addButtonTexts := [], smallTexts := [] }

/-- Claim C1 is refuted by variant A: its primary-tier emission guard
(line 564) also accepts a candidate whose DOM id alone is truthy, so a
record whose name, image and price are all null is emitted. -/
theorem c1_counterexample :
    (extractSearchProductsA ⟨[c1card], []⟩ "2024-01-01T00:00:00Z").length = 1 ∧
      ((extractSearchProductsA ⟨[c1card], []⟩ "2024-01-01T00:00:00Z").headD
          default).productName = none ∧
      ((extractSearchProductsA ⟨[c1card], []⟩ "2024-01-01T00:00:00Z").headD
          default).productImage = none ∧
      ((extractSearchProductsA ⟨[c1card], []⟩ "2024-01-01T00:00:00Z").headD
          default).currentPrice = none := by
  exact ⟨by with_unfolding_all decide, by with_unfolding_all decide,
    by with_unfolding_all decide, by with_unfolding_all decide⟩

/-- Claim C1 amended: variant B keeps the claimed invariant — every
record it emits, from either tier, has at least one of name, image and
price non-null.  Variant A does not: its primary tier emits a candidate
exactly when name, price, image or the DOM id is truthy, so an id-only
container produces an otherwise empty record. -/
theorem c1_amended_emission :
    (∀ (page : PageB) (gdt : Option String) (ts : String) (r : ProductB),
        r ∈ extractSearchProductsB page gdt ts →
          r.productName ≠ none ∨ r.productImage ≠ none ∨ r.currentPrice ≠ none) ∧
      (∀ (c : CardA) (ts : String),
        extractSearchProductsA ⟨[c], []⟩ ts ≠ [] ↔ emitGuardA c = true) := by
  constructor
  · intro page gdt ts r hr
    have hdom : ∀ (cards : List CardB), r ∈ domExtractB gdt ts cards →
        r.productName ≠ none ∨ r.productImage ≠ none ∨ r.currentPrice ≠ none := by
      intro cards hm
      unfold domExtractB at hm
      rcases mem_domExtractGo cards [] hm with h0 | ⟨k, c, _, hq, rfl⟩
      · simp at h0
      · unfold qualifiesB at hq
        simp only [Bool.or_eq_true] at hq
        rcases hq with (h | h) | h
        · exact Or.inl (strTruthy_ne_none h)
        · exact Or.inr (Or.inr (numTruthy_ne_none h))
        · exact Or.inr (Or.inl (strTruthy_ne_none h))
    have hval : ∀ (d : PreloadedData), r ∈ parsedState gdt d →
        r.productName ≠ none ∨ r.productImage ≠ none ∨ r.currentPrice ≠ none := by
      intro d hm
      unfold parsedState at hm
      have hv := List.of_mem_filter hm
      unfold validB at hv
      simp only [Bool.or_eq_true] at hv
      rcases hv with (h | h) | h
      · exact Or.inl (strTruthy_ne_none h)
      · exact Or.inr (Or.inr (numTruthy_ne_none h))
      · exact Or.inr (Or.inl (strTruthy_ne_none h))
    obtain ⟨pre, cards⟩ := page
    cases pre with
    | none => exact hdom cards hr
    | some d =>
      have hr2 : r ∈ (if (stateCandidates d).isEmpty then domExtractB gdt ts cards
          else if (parsedState gdt d).isEmpty then domExtractB gdt ts cards
            else parsedState gdt d) := hr
      by_cases hcs : (stateCandidates d).isEmpty = true
      · rw [if_pos hcs] at hr2; exact hdom cards hr2
      · rw [if_neg hcs] at hr2
        by_cases hpe : (parsedState gdt d).isEmpty = true
        · rw [if_pos hpe] at hr2; exact hdom cards hr2
        · rw [if_neg hpe] at hr2; exact hval d hr2
  · intro c ts
    rw [extractA_singleton c ts]
    by_cases hg : emitGuardA c = true
    · rw [if_pos hg]; simpa using hg
    · rw [if_neg hg]; simpa using hg

/-- A variant B card with only a product name, for the witness. -/
def c1wcard : CardB :=
  { id := "w-1", nameText := some "Amul Milk", imgSrc := none, priceText := none,
    origPriceText := none, weightText := none, deliveryText := none, outOfStockText := none }

/-- A page holding only that card. -/
def c1wpage : PageB := { preloaded := none, cards := [c1wcard] }

/-- Witness for the amended C1 theorem at concrete inputs. -/
theorem c1_amended_emission_witness :
    (((extractSearchProductsB c1wpage none "T").headD default).productName ≠ none ∨
        ((extractSearchProductsB c1wpage none "T").headD default).productImage ≠ none ∨
        ((extractSearchProductsB c1wpage none "T").headD default).currentPrice ≠ none) ∧
      extractSearchProductsA ⟨[c1card], []⟩ "T" ≠ [] :=
  ⟨c1_amended_emission.1 c1wpage none "T" ((extractSearchProductsB c1wpage none "T").headD default)
      (by with_unfolding_all decide),
    (c1_amended_emission.2 c1card "T").mpr (by with_unfolding_all decide)⟩

/-- A variant A card whose text carries a 90% OFF badge while the
prices imply a 50% discount. -/
def c2card : CardA :=
  { id := "prd-50", allText := "Dettol Soap 90% OFF", hasGreyOverlay := false,
    hasOpacityImg := false, hasOpacityDivImg := false, absDivTexts := [], titleText := none,
    imgCdn := none, imgAny := none, imgLazy := none, bgStyle := none, imgContainer := none,
    srcsetAttr := none, weightText := none, priceEls := [⟨"₹50", false⟩],
    origPriceText := some "₹100", deliveryText := none, ratingText := none,
    highlightTexts := [], badgeTexts := [], linkHref := none, addButtonTexts := [],
    smallTexts := [] }

/-- Claim C2 is refuted by variant A: a percent-off badge found in the
card text is taken as the discount without validation (lines 463-465),
even when both prices are present with originalPrice > currentPrice.
Here the emitted discount is 90 although the prices recompute to
round((100-50)/100*100) = 50. -/
theorem c2_counterexample :
    (extractSearchProductsA ⟨[c2card], []⟩ "T").length = 1 ∧
      ((extractSearchProductsA ⟨[c2card], []⟩ "T").headD default).currentPrice = some 50 ∧
      ((extractSearchProductsA ⟨[c2card], []⟩ "T").headD default).originalPrice = some 100 ∧
      ((extractSearchProductsA ⟨[c2card], []⟩ "T").headD default).discountPercentage = some 90 ∧
      jsRound (((100 : ℚ) - 50) / 100 * 100) = 50 ∧ ¬ ((90 : Int) = 50) := by
  exact ⟨by with_unfolding_all decide, by with_unfolding_all decide,
    by with_unfolding_all decide, by with_unfolding_all decide,
    by with_unfolding_all decide, by decide⟩

/-- Claim C2 amended: in the optimized extractor (variant B), the
emitted discount of a DOM record carrying both prices with
0 < currentPrice < originalPrice is always recomputed from the prices —
no badge is consulted anywhere in that extractor — and equals
round((original-current)/original*100), a value in [0, 100] (the strict
bounds 0 < d < 100 of the claim can fail at extreme price ratios, where
the rounded value reaches 0 or 100).  In variant A a badge takes
precedence over the recomputation, per the counterexample. -/
theorem c2_amended_discount (cards : List CardB) (gdt : Option String) (ts : String)
    (r : ProductB) (cv ov : ℚ) (hr : r ∈ domExtractB gdt ts cards)
    (hc : r.currentPrice = some cv) (ho : r.originalPrice = some ov)
    (hc0 : cv ≠ 0) (hlt : cv < ov) :
    r.discountPercentage = some (jsRound ((ov - cv) / ov * 100)) ∧
      0 ≤ jsRound ((ov - cv) / ov * 100) ∧ jsRound ((ov - cv) / ov * 100) ≤ 100 := by
  unfold domExtractB at hr
  rcases mem_domExtractGo cards [] hr with h0 | ⟨k, c, _, _, rfl⟩
  · simp at h0
  · have hcv : cardPriceB c = some cv := hc
    have hov : cardOrigPriceB c = some ov := ho
    have hcv0 : 0 ≤ cv := cardPriceB_nonneg hcv
    have hcvpos : 0 < cv := lt_of_le_of_ne hcv0 (Ne.symm hc0)
    have hovpos : 0 < ov := lt_trans hcvpos hlt
    have hx1 : 0 < (ov - cv) / ov * 100 := by
      have h1 : 0 < ov - cv := by linarith
      positivity
    have hx2 : (ov - cv) / ov * 100 < 100 := by
      rw [div_mul_eq_mul_div, div_lt_iff₀ hovpos]
      nlinarith
    refine ⟨?_, jsRound_nonneg hx1, jsRound_le_100 hx2⟩
    have hfield : (buildB gdt ts k c).discountPercentage =
        discountOf (cardPriceB c) (cardOrigPriceB c) := rfl
    rw [hfield, hcv, hov]
    show (if cv ≠ 0 ∧ ov ≠ 0 ∧ cv < ov then some (jsRound ((ov - cv) / ov * 100)) else none) =
      some (jsRound ((ov - cv) / ov * 100))
    rw [if_pos ⟨hc0, ne_of_gt hovpos, hlt⟩]

/-- A variant B card with a current and a strikethrough price, for the
witness. -/
def c2wcard : CardB :=
  { id := "w-2", nameText := none, imgSrc := none, priceText := some "₹50",
    origPriceText := some "₹100", weightText := none, deliveryText := none,
    outOfStockText := none }

/-- Witness for the amended C2 theorem at concrete inputs. -/
theorem c2_amended_discount_witness :
    ((domExtractB none "T" [c2wcard]).headD default).discountPercentage =
        some (jsRound (((100 : ℚ) - 50) / 100 * 100)) ∧
      0 ≤ jsRound (((100 : ℚ) - 50) / 100 * 100) ∧
      jsRound (((100 : ℚ) - 50) / 100 * 100) ≤ 100 :=
  c2_amended_discount [c2wcard] none "T" ((domExtractB none "T" [c2wcard]).headD default) 50 100
    (by with_unfolding_all decide) (by with_unfolding_all decide)
    (by with_unfolding_all decide) (by with_unfolding_all decide)
    (by with_unfolding_all decide)

/-- A structured-state candidate with a name, a price and an id. -/
def c5cand : Candidate :=
  { titleText := some "Amul Gold Milk", name := none, productNameAlt := none,
    dataTitle := none, dataName := none, imageUrl := none, productImageAlt := none,
    imageUrlSnake := none, dataImageUrl := none, price := some 25, currentPriceAlt := none,
    currentPriceSnake := none, pricingPrice := none, id := some "state-cand-1",
    productIdAlt := none, productIdSnake := none, sku := none }

/-- A preloaded state blob with ten valid candidates. -/
def c5state : PreloadedData :=
  { searchResults := some (List.replicate 10 c5cand), plpProducts := none, widgets := none }

/-- A DOM card that would extract if the variant B DOM tier ran. -/
def c5domcard : CardB :=
  { id := "dom-1", nameText := some "DOM Product", imgSrc := none, priceText := none,
    origPriceText := none, weightText := none, deliveryText := none, outOfStockText := none }

/-- A page with both the state blob and a DOM card. -/
def c5page : PageB := { preloaded := some c5state, cards := [c5domcard] }

/-- A variant A DOM card with a product title. -/
def c5acard : CardA :=
  { id := "dom-a-1", allText := "DOM Product A", hasGreyOverlay := false,
    hasOpacityImg := false, hasOpacityDivImg := false, absDivTexts := [],
    titleText := some "DOM Product A", imgCdn := none, imgAny := none, imgLazy := none,
    bgStyle := none, imgContainer := none, srcsetAttr := none, weightText := none,
    priceEls := [], origPriceText := none, deliveryText := none, ratingText := none,
    highlightTexts := [], badgeTexts := [], linkHref := none, addButtonTexts := [],
    smallTexts := [] }

/-- Claim C5 is refuted by variant A: its extractSearchProducts never
reads the embedded structured state.  On a page whose preloaded state
yields ten valid candidates, variant A still runs the DOM tier: it
returns the single DOM-derived record — not the ten normalized state
records — and its output depends on the DOM cards. -/
theorem c5_counterexample :
    (parsedState none c5state).length = 10 ∧
      (extractOnStatePageA ⟨some c5state, [c5acard], []⟩ "T").map ProductA.productName =
        [some "DOM Product A"] ∧
      extractOnStatePageA ⟨some c5state, [c5acard], []⟩ "T" ≠
        extractOnStatePageA ⟨some c5state, [], []⟩ "T" ∧
      (extractOnStatePageA ⟨some c5state, [c5acard], []⟩ "T").length ≠
        (parsedState none c5state).length := by
  exact ⟨by with_unfolding_all decide, by with_unfolding_all decide,
    by with_unfolding_all decide, by with_unfolding_all decide⟩

/-- Claim C5 amended: only variant B has a structured-state tier.  For
variant B, when the page embeds a preloaded state whose candidates
normalize and filter to at least one valid record, the extractor
returns exactly that parsed list and the DOM tier is never invoked —
the result is independent of whatever product cards the DOM holds.
Variant A never consults the embedded structured state: its output on
a page carrying the state blob is the same for every state value, and
its DOM extraction always runs. -/
theorem c5_amended_structured_tier (page : PageB) (d : PreloadedData) (gdt : Option String)
    (ts : String) (hp : page.preloaded = some d) (hne : parsedState gdt d ≠ []) :
    (extractSearchProductsB page gdt ts = parsedState gdt d ∧
      ∀ cards2 : List CardB, extractSearchProductsB ⟨some d, cards2⟩ gdt ts = parsedState gdt d) ∧
      ∀ (st1 st2 : Option PreloadedData) (cardsA : List CardA) (alt : List FbCardA)
        (ts2 : String),
        extractOnStatePageA ⟨st1, cardsA, alt⟩ ts2 = extractOnStatePageA ⟨st2, cardsA, alt⟩ ts2 := by
  have key : ∀ cards2 : List CardB,
      extractSearchProductsB ⟨some d, cards2⟩ gdt ts = parsedState gdt d := by
    intro cards2
    have hshape : extractSearchProductsB ⟨some d, cards2⟩ gdt ts =
        (if (stateCandidates d).isEmpty then domExtractB gdt ts cards2
          else if (parsedState gdt d).isEmpty then domExtractB gdt ts cards2
            else parsedState gdt d) := rfl
    rw [hshape]
    have hcs : ¬ (stateCandidates d).isEmpty = true := by
      intro he
      exact hne (parsedState_of_empty (List.isEmpty_iff.mp he))
    have hpe : ¬ (parsedState gdt d).isEmpty = true := by
      intro he
      exact hne (List.isEmpty_iff.mp he)
    rw [if_neg hcs, if_neg hpe]
  refine ⟨⟨?_, key⟩, ?_⟩
  · obtain ⟨pre, cards⟩ := page
    obtain rfl : pre = some d := hp
    exact key cards
  · intro st1 st2 cardsA alt ts2
    rfl

/-- Witness for the amended C5 theorem: the scenario of the spec with
ten valid structured candidates — exactly ten records are returned by
variant B. -/
theorem c5_amended_structured_tier_witness :
    extractSearchProductsB c5page none "T" = parsedState none c5state ∧
      (parsedState none c5state).length = 10 :=
  ⟨((c5_amended_structured_tier c5page c5state none "T" rfl
      (by with_unfolding_all decide)).1).1,
    by with_unfolding_all decide⟩

/-- Claim C9: the numeric price parser maps ₹1,299 to 1299 — currency
marker located, thousands separator stripped, parsed as a decimal — and
any text without a ₹ marker yields null; the parser is a total function
into Option, so no error propagates. -/
theorem c9_price_parse :
    parsePriceText "₹1,299" = some 1299 ∧
      ∀ s : String, (∀ c ∈ s.data, ¬(c = '₹')) → parsePriceText s = none := by
  constructor
  · decide
  · intro s h
    unfold parsePriceText
    rw [scanRupee_eq_none h]
    rfl

/-- Witness for C9 at a concrete marker-free input. -/
theorem c9_price_parse_witness : parsePriceText "Add to cart" = none :=
  c9_price_parse.2 "Add to cart" (by decide)

/-- Claim C10: the metadata-annotation step before the sink only adds
the request-scoped fields — search query, source URL / resolved
location, platform tag and pincode — and leaves every extractor-
produced field of every saved record unchanged: stripping the metadata
fields of the saved list gives back exactly the truncated extractor
output, in both variants A and B. -/
theorem c10_metadata_frame (ps : List ProductB) (n : ℕ) (m : MetaB) :
    (productsToSaveB ps n m).map SavedProductB.toProductB = ps.take n ∧
      (∀ r ∈ productsToSaveB ps n m,
        r.searchQuery = m.searchQuery ∧ r.requestedPincode = m.requestedPincode ∧
          r.deliveryLocation = m.deliveryLocation ∧ r.platform = "Blinkit") ∧
      ∀ (psA : List ProductA) (nA : ℕ) (mA : MetaA),
        (productsToSaveA psA nA mA).map SavedProductA.toProductA = psA.take nA := by
  refine ⟨?_, ?_, ?_⟩
  · unfold productsToSaveB
    rw [List.map_map]
    have hcomp : (SavedProductB.toProductB ∘ annotateB m) = id := by
      funext p; rfl
    rw [hcomp, List.map_id]
  · intro r hr
    unfold productsToSaveB at hr
    rcases List.mem_map.mp hr with ⟨p, _, rfl⟩
    exact ⟨rfl, rfl, rfl, rfl⟩
  · intro psA nA mA
    unfold productsToSaveA
    rw [List.map_map]
    have hcomp : (SavedProductA.toProductA ∘ annotateA mA) = id := by
      funext p; rfl
    rw [hcomp, List.map_id]

/-- Concrete metadata for the C10 witness. -/
def c10meta : MetaB :=
  { searchQuery := some "milk", requestedPincode := some "411001", deliveryLocation := "Pune" }

/-- Witness for C10 at a concrete record and metadata. -/
theorem c10_metadata_frame_witness :
    (annotateB c10meta (default : ProductB)).searchQuery = some "milk" ∧
      (annotateB c10meta (default : ProductB)).requestedPincode = some "411001" ∧
      (annotateB c10meta (default : ProductB)).deliveryLocation = "Pune" ∧
      (annotateB c10meta (default : ProductB)).platform = "Blinkit" :=
  (c10_metadata_frame [(default : ProductB)] 100 c10meta).2.1
    (annotateB c10meta (default : ProductB)) (by with_unfolding_all decide)

end Blinkit
